import Mathlib

/-!
Verification development for the Rawi story-generator service core
(`ai_service.py`, `prompts.py`, `models.py`).

Strings are modelled as lists of characters (`Str`).  Python regular
expressions used by the service are modelled by explicit scanning functions
that follow the behaviour of the concrete patterns appearing in the source
(leftmost match, greedy `\d+` and `\s*`, lazy groups stopping at the first
position where the follow-up alternative matches).  `\s` is modelled on the
whitespace characters relevant to the service's ASCII/Arabic text, and `\d`
on the ASCII, Arabic-Indic and Extended Arabic-Indic decimal digits.
The remote DeepSeek endpoint is abstracted by an oracle
`env : Nat → ApiOutcome` giving the outcome of each successive HTTP request
of one `generate_response` call; sleeps are recorded in a trace.
-/

/-- Python strings, modelled as lists of characters. -/
abbrev Str := List Char

/-- The whitespace class used by `str.strip` and the regex class `\s`,
restricted to the characters relevant to this service's text. -/
def pyWS (c : Char) : Bool :=
  c = ' ' || c = '\t' || c = '\n' || c = '\r' || c = '\x0b' || c = '\x0c' || c = ' '

/-- The regex class `\d`: ASCII, Arabic-Indic and Extended Arabic-Indic
decimal digits. -/
def pyDigit (c : Char) : Bool :=
  c.isDigit || ('٠' ≤ c && c ≤ '٩') || ('۰' ≤ c && c ≤ '۹')

/-- Python `str.strip()`. -/
def strip (s : Str) : Str :=
  ((s.dropWhile pyWS).reverse.dropWhile pyWS).reverse

/-- Index of the leftmost occurrence of `pat` in a string, as found by
`re.search` on a literal pattern. -/
def findSub (pat : Str) : Str → Option Nat
  | [] => if pat.isPrefixOf ([] : Str) then some 0 else none
  | c :: rest =>
    if pat.isPrefixOf (c :: rest) then some 0
    else (findSub pat rest).map (· + 1)

/-- Python `str.split(sep)` for a non-empty separator (fuelled). -/
def splitSub (sep : Str) : Nat → Str → List Str
  | 0, t => [t]
  | fuel + 1, t =>
    match findSub sep t with
    | none => [t]
    | some i => t.take i :: splitSub sep fuel (t.drop (i + sep.length))

/-- Python `str.replace(pat, "")` (all occurrences removed). -/
def removeAllSub (pat : Str) (t : Str) : Str :=
  (splitSub pat (t.length + 1) t).flatten

/-- Python `sep.join(parts)`. -/
def joinSep (sep : Str) : List Str → Str
  | [] => []
  | [x] => x
  | x :: y :: ys => x ++ sep ++ joinSep sep (y :: ys)

/-- Decimal rendering of a natural number (Python `str(n)`). -/
def natToStr (n : Nat) : Str := (toString n).data

/-- Decimal rendering of an integer (Python `str(i)`). -/
def intToStr (i : Int) : Str := (toString i).data

/-- Python truthiness of an optional string (`None` and `""` are falsy). -/
def pyTruthy (o : Option Str) : Bool :=
  match o with
  | none => false
  | some s => !s.isEmpty

/-! ## Data model (`models.py`) -/

/-- Conversation roles. -/
inductive Role
  | system
  | user
  | assistant
deriving DecidableEq

/-- One conversation message (`{"role": ..., "content": ...}`). -/
structure Message where
  role : Role
  content : Str
deriving DecidableEq

/-- `StoryLength` enumeration. -/
inductive StoryLength
  | short
  | medium
  | long
deriving DecidableEq

/-- `StoryType` enumeration (Arabic genre values). -/
inductive StoryType
  | romance
  | horror
  | comedy
  | action
  | adventure
  | drama
  | fantasy
  | historical
  | mystery
  | noneType
deriving DecidableEq

/-- `CharacterGender` enumeration. -/
inductive CharacterGender
  | male
  | female
deriving DecidableEq

/-- The Arabic value string of a genre (`StoryType.value`). -/
def StoryType.value : StoryType → Str
  | .romance => "رومانسي".data
  | .horror => "رعب".data
  | .comedy => "كوميدي".data
  | .action => "أكشن".data
  | .adventure => "مغامرة".data
  | .drama => "دراما".data
  | .fantasy => "خيال".data
  | .historical => "تاريخي".data
  | .mystery => "غموض".data
  | .noneType => "لا".data

/-- The Arabic value string of a gender (`CharacterGender.value`). -/
def CharacterGender.value : CharacterGender → Str
  | .male => "ذكر".data
  | .female => "أنثى".data

/-- `Character` request model. -/
structure Character where
  name : Str
  gender : CharacterGender
  description : Str
deriving DecidableEq

/-- `StoryConfig` request model. -/
structure StoryConfig where
  length : StoryLength
  primary_type : StoryType
  secondary_type : StoryType
  characters : List Character
deriving DecidableEq

/-- `StoryChoice` response model. -/
structure StoryChoice where
  id : Int
  text : Str
deriving DecidableEq

/-- `StoryParagraph` response model. -/
structure StoryParagraph where
  content : Str
  choices : Option (List StoryChoice)
deriving DecidableEq

/-- `StoryResponse` response model. -/
structure StoryResponse where
  story_id : Str
  paragraph : StoryParagraph
  is_complete : Bool
  title : Option Str
deriving DecidableEq

/-- The dictionary returned by `edit_story`. -/
structure EditResult where
  paragraphs : List Str
  title : Option Str
deriving DecidableEq

/-- One stored story session: the entry of `stories_context` (paragraphs,
current paragraph index) together with the entry of `stories_metadata`
(config, max paragraph target, messages, title), keyed by `story_id`. -/
structure Session where
  story_id : Str
  paragraphs : List Str
  current_paragraph : Nat
  config : StoryConfig
  max_paragraphs : Nat
  messages : List Message
  title : Option Str
deriving DecidableEq

/-! ## Prompt builders (`prompts.py`) -/

/-- `get_system_prompt`: the base system prompt. -/
def get_system_prompt : Str :=
  ("
    You are a professional and creative Arabic story writer. Your task is to write original, engaging, and cohesive Arabic stories.
    
    Adhere to the following standards in all the stories you write:

    1. Use correct and understandable classical Arabic language, free from grammatical and spelling errors.
    2. Build a coherent and logical story that follows good dramatic structure principles (beginning, rising action, climax, resolution).
    3. Adhere to Arabic and Islamic values and ethics in the story content.
    4. Avoid inappropriate content or anything that violates public taste or religious values.
    5. Provide detailed sensory descriptions of characters, places, and events to make the story vivid and engaging.
    6. Make dialogue realistic and natural, appropriate to the story's characters and environment.
    7. Maintain consistency in character traits and behaviors throughout the story.
    8. Include positive values and useful lessons in an indirect way.
    9. Use diverse narrative techniques: description, dialogue, narration, internal monologue.
    10. Create a clear conflict that drives the story events and maintains reader interest.

    Each time you are asked to write a new paragraph of the story, you must:
    - Write a coherent and engaging narrative paragraph of 4-6 lines in Arabic.
    - Provide 3 distinctive and interesting options to develop the story's path.
    
    Important rules for options:
    1. Make options very practical and short (3-5 words only) in Arabic.
    2. ALWAYS start each option with the character's name followed by the action verb.
    3. Use clear format: \"[Character name] + verb\", for example: \"أحمد يتصل بالشرطة\" (Ahmed calls the police), \"سارة تهرب من المكان\" (Sarah escapes from the place).
    4. Make it absolutely clear WHO is performing the action in each option.
    5. Don't explain what will happen after the choice, just mention the direct action.
    6. Ensure each option will lead to a completely different path in the story.
    7. Make options logical and appropriate to the current situation in the story.
    
    Result of user choice:
    1. Do not summarize the user's chosen option at the beginning of the next paragraph.
    2. Start directly with the reactions and consequences resulting from the user's choice.
    3. Present surprising and unexpected developments resulting from the choice.
    4. Maintain story consistency despite the change in path.
    
    When the story is complete, choose an engaging and deep title that reflects the essence and content of the story.
    ").data

/-- Auxiliary loop of `format_characters_info` (1-based enumeration). -/
def formatCharactersAux : Nat → List Character → Str
  | _, [] => []
  | i, ch :: rest =>
    let gender_text : Str :=
      if ch.gender.value = "ذكر".data then "ذكر".data else "أنثى".data
    natToStr i ++ ". الشخصية: ".data ++ ch.name ++ "، الجنس: ".data ++
      gender_text ++ "، الوصف: ".data ++ ch.description ++ "\n".data ++
      formatCharactersAux (i + 1) rest

/-- `format_characters_info`. -/
def format_characters_info (characters : List Character) : Str :=
  if characters.isEmpty then
    "لا توجد شخصيات محددة، يمكنك إنشاء شخصيات مناسبة للقصة.".data
  else
    "معلومات الشخصيات:\n".data ++ formatCharactersAux 1 characters

/-- The value of one entry of the `length_mapping` dictionary. -/
structure LengthInfo where
  paragraphs : Nat
  description : Str
deriving DecidableEq

/-- `get_story_length_instructions`: paragraph targets 3/5/7.  (The Python
`dict.get` default of `medium` is unreachable since the enum is total.) -/
def get_story_length_instructions : StoryLength → LengthInfo
  | .short => ⟨3, "قصة قصيرة تتكون من 3 فقرات".data⟩
  | .medium => ⟨5, "قصة متوسطة الطول تتكون من 5 فقرات".data⟩
  | .long => ⟨7, "قصة طويلة تتكون من 7 فقرات".data⟩

/-- `get_story_type_description`. -/
def get_story_type_description (primary_type secondary_type : StoryType) : Str :=
  if secondary_type = .noneType then
    "قصة من نوع ".data ++ primary_type.value
  else
    "قصة تجمع بين نوعي ".data ++ primary_type.value ++ " و".data ++ secondary_type.value

/-- `create_story_init_prompt`. -/
def create_story_init_prompt (config : StoryConfig) : Str :=
  let length_info := get_story_length_instructions config.length
  let story_type := get_story_type_description config.primary_type config.secondary_type
  let characters_info := format_characters_info config.characters
  ("
    Please write ").data ++ length_info.description ++ (" of ").data ++ story_type ++ (".
    
    ").data ++ characters_info ++ ("
    
    Required from you:
    1. Write the first paragraph of the story (4-6 lines) in Arabic.
    2. Start the story with a strong and engaging beginning that captivates the reader from the first line.
    3. Present the characters and setting (place and time) clearly and interestingly.
    4. Establish a conflict, problem, or situation that drives the story events.
    5. Present 3 short, exciting, and logical options for actions the protagonist can take.
    6. Make the options very short (3-5 words only) and practical and direct.
    7. ALWAYS include the character's name in each option before the action verb.
    8. Format: \"[Character name] + verb\", like: \"أحمد يتصل بالشرطة\", \"سارة تهرب من المكان\".
    
    Present the first paragraph and options in the following format:
    
    الفقرة:
    [Write the first paragraph of the story here in Arabic]
    
    الخيارات:
    1. [Character name + action verb in Arabic, 3-5 words total]
    2. [Character name + different action verb in Arabic, 3-5 words total]
    3. [Character name + another different action verb in Arabic, 3-5 words total]
    ").data

/-- `create_continuation_prompt`. -/
def create_continuation_prompt (story_context : Str) (choice_id : Int)
    (choice_text : Str) (current_paragraph max_paragraphs : Nat) : Str :=
  let is_final := current_paragraph ≥ max_paragraphs - 1
  let prompt :=
    ("
    Story context so far:
    ").data ++ story_context ++ ("
    
    The user chose path number ").data ++ intToStr choice_id ++ (": ").data ++ choice_text ++ ("
    
    Required from you:
    1. Continue writing the story with a new paragraph (4-6 lines) in Arabic that directly follows the choice made by the user.
    2. Do not summarize the choice that the user made; instead, start directly with the events that result from this choice.
    3. Add unexpected and exciting developments to engage the reader.
    4. Maintain consistency in the story's characters and world.
    ").data
  if is_final then
    prompt ++ ("
    5. This is the final paragraph of the story, so end the story in a logical and satisfying way that closes all open paths.
    6. Suggest an appropriate and deep title for the complete story.
    
    Present the final paragraph and title in the following format:
    
    الفقرة:
    [Write the final paragraph of the story here in Arabic]
    
    العنوان:
    [Write the suggested title for the story here in Arabic]
    ").data
  else
    prompt ++ ("
    5. Present 3 short, logical, and practical options for continuing the story.
    6. Make the options very short (3-5 words only) in Arabic.
    7. ALWAYS include the character's name in each option before the action verb.
    8. Format: \"[Character name] + verb\", like: \"أحمد يتصل بالشرطة\", \"سارة تهرب من المكان\".
    9. Make it absolutely clear WHO is performing the action in each option.
    10. Ensure each option will lead to a completely different path in the story.
    
    Present the next paragraph and options in the following format:
    
    الفقرة:
    [Write the next paragraph of the story here in Arabic]
    
    الخيارات:
    1. [Character name + action verb in Arabic, 3-5 words total]
    2. [Character name + different action verb in Arabic, 3-5 words total]
    3. [Character name + another different action verb in Arabic, 3-5 words total]
    ").data

/-- `create_title_prompt`. -/
def create_title_prompt (complete_story : Str) : Str :=
  ("
    Here is a complete story:
    
    ").data ++ complete_story ++ ("
    
    Suggest an appropriate and engaging title for this story that reflects its essence and content.
    Provide only the title without any additional explanation and without any story Characters names in Arabic.
    ").data

/-! ## Response parser (`parse_paragraph_and_choices`) -/

/-- The paragraph marker `الفقرة:`. -/
def parMarker : Str := "الفقرة:".data

/-- The choices marker `الخيارات:`. -/
def choicesMarker : Str := "الخيارات:".data

/-- The title marker `العنوان:`. -/
def titleMarker : Str := "العنوان:".data

/-- End of the lazy group of `الفقرة:(.*?)(?:الخيارات:|العنوان:|$)`:
the first position where either stop marker matches, or the end. -/
def paragraphStop (t : Str) : Nat :=
  match findSub choicesMarker t, findSub titleMarker t with
  | some i, some j => min i j
  | some i, none => i
  | none, some j => j
  | none, none => t.length

/-- Does `\d+\.` match at the head of the string?  Returns the number of
characters consumed (digit run plus the dot). -/
def numDotAt (t : Str) : Option Nat :=
  let r := (t.takeWhile pyDigit).length
  if r ≥ 1 ∧ (t.drop r).head? = some '.' then some (r + 1) else none

/-- Leftmost position where `\d+\.` matches. -/
def findNumDot : Str → Option Nat
  | [] => none
  | c :: rest =>
    if (numDotAt (c :: rest)).isSome then some 0
    else (findNumDot rest).map (· + 1)

/-- `re.findall(r"\d+\.\s*(.*?)(?=\d+\.|$)", choices_text, re.DOTALL)`:
scan for numbered items; each raw group runs from after the number and its
trailing whitespace up to the next numbered marker or the end (fuelled). -/
def scanNumberedItems : Nat → Str → List Str
  | 0, _ => []
  | fuel + 1, t =>
    match findNumDot t with
    | none => []
    | some p =>
      let t1 := t.drop p
      match numDotAt t1 with
      | none => []
      | some consumed =>
        let t2 := (t1.drop consumed).dropWhile pyWS
        match findNumDot t2 with
        | none => [t2]
        | some e => t2.take e :: scanNumberedItems fuel (t2.drop e)

/-- The numbered items of a choices block. -/
def numberedItems (choices_text : Str) : List Str :=
  scanNumberedItems (choices_text.length + 1) choices_text

/-- The numbered-extraction loop: `enumerate(..., 1)` assigning ids while
skipping items whose stripped text is empty (the counter still advances). -/
def buildNumberedAux : Int → List Str → List StoryChoice
  | _, [] => []
  | i, it :: rest =>
    let choice_text := strip it
    if choice_text.isEmpty then buildNumberedAux (i + 1) rest
    else ⟨i, choice_text⟩ :: buildNumberedAux (i + 1) rest

/-- Choices from the numbered extraction. -/
def buildNumbered (items : List Str) : List StoryChoice :=
  buildNumberedAux 1 items

/-- `re.sub(r"^\d+\.\s*", "", line)`: strip a leading numbering. -/
def stripLeadingNumber (line : Str) : Str :=
  match numDotAt line with
  | some consumed => (line.drop consumed).dropWhile pyWS
  | none => line

/-- The line-based fallback loop: non-blank lines enumerated from 1, only
the first 3 kept, leading numbering removed. -/
def buildFallbackAux : Int → List Str → List StoryChoice
  | _, [] => []
  | i, line :: rest =>
    if i ≤ 3 then ⟨i, strip (stripLeadingNumber line)⟩ :: buildFallbackAux (i + 1) rest
    else buildFallbackAux (i + 1) rest

/-- Choices from the line-based fallback extraction over the non-blank
lines of the choices block. -/
def buildFallback (choices_text : Str) : List StoryChoice :=
  buildFallbackAux 1
    (((splitSub ("\n".data) (choices_text.length + 1) choices_text)).filter
      (fun l => !(strip l).isEmpty))

/-- The stripped choices block (group of `الخيارات:(.*?)(?:$)`), when the
marker is present. -/
def choicesBlock (response_text : Str) : Option Str :=
  (findSub choicesMarker response_text).map
    (fun i => strip (response_text.drop (i + choicesMarker.length)))

/-- `parse_paragraph_and_choices`: extract the paragraph, the optional
choice list and the optional title from a model reply.  Total on every
input; falls back to the whole trimmed reply when no paragraph marker is
present. -/
def parse_paragraph_and_choices (response_text : Str) :
    Str × Option (List StoryChoice) × Option Str :=
  let paragraph :=
    match findSub parMarker response_text with
    | some i =>
      let afterMarker := response_text.drop (i + parMarker.length)
      strip (afterMarker.take (paragraphStop afterMarker))
    | none => strip response_text
  let choices :=
    match choicesBlock response_text with
    | some choices_text =>
      let numbered := buildNumbered (numberedItems choices_text)
      some (if numbered.isEmpty then buildFallback choices_text else numbered)
    | none => none
  let title :=
    (findSub titleMarker response_text).map
      (fun i => strip (response_text.drop (i + titleMarker.length)))
  (paragraph, choices, title)

/-! ## Model client (`generate_response`) -/

/-- Outcome of one HTTP request to the DeepSeek endpoint, as observed by
the retry loop of `generate_response`. -/
inductive ApiOutcome
  | rateLimited
  | badStatus (code : Nat) (text : Str)
  | transportError (msg : Str)
  | malformedSuccess
  | success (content : Str)
deriving DecidableEq

/-- The message of the exception raised when no API key is configured. -/
def apiKeyMissingMsg : Str :=
  "مفتاح API غير متوفر. يرجى التحقق من إعداد المتغيرات البيئية.".data

/-- The error message for a non-2xx response status. -/
def badStatusMsg (code : Nat) (text : Str) : Str :=
  "فشل طلب DeepSeek API: ".data ++ natToStr code ++ " - ".data ++ text

/-- The error message for a transport-level (`httpx.HTTPError`) failure. -/
def transportErrMsg (m : Str) : Str :=
  "خطأ في اتصال HTTP: ".data ++ m

/-- The error message recorded when a 2xx response lacks a non-empty
`choices` payload field: the `raise` inside the attempt is caught by the
generic `except Exception` handler, which prefixes it. -/
def malformedResponseMsg : Str :=
  "خطأ غير متوقع: ".data ++ "تنسيق استجابة DeepSeek API غير صالح".data

/-- The generic message raised when every attempt failed without a
captured exception. -/
def allAttemptsFailedMsg : Str :=
  "فشل الاتصال بـ DeepSeek API بعد عدة محاولات".data

/-- Result of one `generate_response` call: the returned content or the
raised error, together with the number of HTTP requests issued and the
trace of back-off sleeps performed. -/
structure GenResult where
  result : Except Str Str
  requests : Nat
  sleeps : List ℚ

/-- `backoff_factor * (2 ** attempt)`. -/
def waitTime (backoff : ℚ) (attempt : Nat) : ℚ := backoff * 2 ^ attempt

/-- The `for attempt in range(retries)` loop of `generate_response`:
429 sleeps and retries without recording an exception; a bad status, a
transport error and a malformed 2xx payload each record the exception,
sleep and retry; a well-formed 2xx returns its content; an exhausted loop
raises the last recorded exception, or the generic message. -/
def genLoop (env : Nat → ApiOutcome) (backoff : ℚ) :
    Nat → Nat → Option Str → Nat → List ℚ → GenResult
  | _, 0, lastExc, reqs, sleeps =>
    ⟨.error (lastExc.getD allAttemptsFailedMsg), reqs, sleeps⟩
  | attempt, remaining + 1, lastExc, reqs, sleeps =>
    match env attempt with
    | .rateLimited =>
      genLoop env backoff (attempt + 1) remaining lastExc (reqs + 1)
        (sleeps ++ [waitTime backoff attempt])
    | .badStatus code text =>
      genLoop env backoff (attempt + 1) remaining (some (badStatusMsg code text))
        (reqs + 1) (sleeps ++ [waitTime backoff attempt])
    | .transportError m =>
      genLoop env backoff (attempt + 1) remaining (some (transportErrMsg m))
        (reqs + 1) (sleeps ++ [waitTime backoff attempt])
    | .malformedSuccess =>
      genLoop env backoff (attempt + 1) remaining (some malformedResponseMsg)
        (reqs + 1) (sleeps ++ [waitTime backoff attempt])
    | .success c => ⟨.ok c, reqs + 1, sleeps⟩

/-- `generate_response(messages, retries, backoff_factor)`: fails at once
when no API key is configured, otherwise runs the retry loop.  The remote
endpoint is abstracted by `env`; the message payload does not constrain
the oracle. -/
def generate_response (apiKey : Option Str) (env : Nat → ApiOutcome)
    (messages : List Message) (retries : Nat) (backoff : ℚ) : GenResult :=
  if pyTruthy apiKey then genLoop env backoff 0 retries none 0 []
  else ⟨.error apiKeyMissingMsg, 0, []⟩

/-! ## Session store and state machine (`ai_service.py`) -/

/-- `ValueError("معرف الاختيار غير صالح")`. -/
def invalidChoiceMsg : Str := "معرف الاختيار غير صالح".data

/-- The `IndexError` raised by `messages[-1]` on an empty history. -/
def indexErrorMsg : Str := "IndexError: list index out of range".data

/-- `len(choices)` with `None` counting as zero (only reached behind the
short-circuiting truthiness test, where the two agree with Python). -/
def numChoices (o : Option (List StoryChoice)) : Nat := (o.getD []).length

/-- Python falsiness of the parsed choice list (`not choices`): `None` and
the empty list are falsy. -/
def pyFalsyChoices (o : Option (List StoryChoice)) : Bool :=
  match o with
  | none => true
  | some l => l.isEmpty

/-- `next((c.text for c in choices if c.id == choice_id), "")`. -/
def chosenText (choices : List StoryChoice) (choice_id : Int) : Str :=
  ((choices.find? (fun c => c.id == choice_id)).map (fun c => c.text)).getD []

/-- `initialize_story(config)`: build the system and init messages, call
the model, parse the reply and store a fresh session.  On failure nothing
is stored (`none`). -/
def initialize_story (apiKey : Option Str) (env : Nat → ApiOutcome)
    (config : StoryConfig) (story_id : Str) :
    Option Session × Except Str StoryResponse × Nat :=
  let system_prompt := get_system_prompt
  let user_prompt := create_story_init_prompt config
  let messages : List Message := [⟨.system, system_prompt⟩, ⟨.user, user_prompt⟩]
  let g := generate_response apiKey env messages 3 (3 / 2)
  match g.result with
  | .error e => (none, .error e, g.requests)
  | .ok response_text =>
    let pr := parse_paragraph_and_choices response_text
    let paragraph : StoryParagraph := ⟨pr.1, pr.2.1⟩
    let length_info := get_story_length_instructions config.length
    let s : Session :=
      { story_id := story_id
        paragraphs := [pr.1]
        current_paragraph := 1
        config := config
        max_paragraphs := length_info.paragraphs
        messages := messages ++ [⟨.assistant, response_text⟩]
        title := none }
    (some s, .ok ⟨story_id, paragraph, false, none⟩, g.requests)

/-- The shared commit sequence of both advance operations, applied to the
session state `s1` that already holds the appended user prompt: append the
parsed paragraph, increment the index, store the title when the story just
completed and the parsed title is truthy, append the assistant message and
build the returned view (choices suppressed when complete). -/
def advanceCommit (s1 : Session) (response_text : Str) : Session × StoryResponse :=
  let pr := parse_paragraph_and_choices response_text
  let s2 := { s1 with paragraphs := s1.paragraphs ++ [pr.1],
                      current_paragraph := s1.current_paragraph + 1 }
  let is_complete := decide (s1.current_paragraph ≥ s1.max_paragraphs - 1)
  let s3 := if is_complete && pyTruthy pr.2.2 then { s2 with title := pr.2.2 } else s2
  let s4 := { s3 with messages := s3.messages ++ [⟨.assistant, response_text⟩] }
  (s4, ⟨s1.story_id, ⟨pr.1, if is_complete then none else pr.2.1⟩, is_complete,
        if is_complete then s4.title else none⟩)

/-- The tail of `continue_story` after choice validation: append the user
continuation prompt to the stored history (this mutation happens before the
model call), call the model, and on success commit the advance.  On model
failure the appended user message remains in the stored history. -/
def continue_from (apiKey : Option Str) (env : Nat → ApiOutcome)
    (s : Session) (choice_id : Int) (choice_text : Str) :
    Session × Except Str StoryResponse × Nat :=
  let story_context_text := joinSep ("\n".data) s.paragraphs
  let continuation_prompt := create_continuation_prompt story_context_text
    choice_id choice_text s.current_paragraph s.max_paragraphs
  let s1 := { s with messages := s.messages ++ [⟨.user, continuation_prompt⟩] }
  let g := generate_response apiKey env s1.messages 3 (3 / 2)
  match g.result with
  | .error e => (s1, .error e, g.requests)
  | .ok response_text =>
    let c := advanceCommit s1 response_text
    (c.1, .ok c.2, g.requests)

/-- `continue_story(story_id, choice_id)`: re-parse the last stored
message to recover the choice set, validate the requested id, then advance.
(The `story_id` membership test of the source is the caller's lookup of
this session.) -/
def continue_story (apiKey : Option Str) (env : Nat → ApiOutcome)
    (s : Session) (choice_id : Int) : Session × Except Str StoryResponse × Nat :=
  match s.messages.getLast? with
  | none => (s, .error indexErrorMsg, 0)
  | some last =>
    let choices := (parse_paragraph_and_choices last.content).2.1
    if pyFalsyChoices choices = true ∨ choice_id < 1 ∨
        choice_id > (numChoices choices : Int) then
      (s, .error invalidChoiceMsg, 0)
    else
      continue_from apiKey env s choice_id (chosenText (choices.getD []) choice_id)

/-- The inline custom-text continuation prompt of
`continue_story_with_text`. -/
def customContinuationPrompt (story_context_text custom_text : Str)
    (current_paragraph max_paragraphs : Nat) : Str :=
  ("
لقد وصلنا إلى هذه النقطة في القصة:

").data ++ story_context_text ++ ("

المستخدم اختار أن يكتب رداً مخصصاً بدلاً من اختيار أحد الخيارات المقدمة. الرد المخصص للمستخدم هو:

\"").data ++ custom_text ++ ("\"

بناءً على هذا المدخل من المستخدم، استمر في القصة واكتب فقرة جديدة تأخذ بعين الاعتبار ما كتبه المستخدم.
ثم قدم 3 خيارات جديدة للمستخدم ليختار منها للاستمرار في القصة.

تذكر أن القصة الآن في:
- الفقرة رقم: ").data ++ natToStr current_paragraph ++ (" من ").data ++
    natToStr max_paragraphs ++ ("
- إذا كانت هذه الفقرة الأخيرة أو قبل الأخيرة، قم بختم القصة بشكل مناسب.

يجب أن يكون تنسيق ردك كما يلي:

الفقرة: [نص الفقرة الجديدة من القصة]

الخيارات:
1. [الخيار الأول]
2. [الخيار الثاني]
3. [الخيار الثالث]

إذا كانت هذه الفقرة الأخيرة، أضف عنواناً للقصة:

العنوان: [عنوان مناسب للقصة كاملة]
").data

/-- `continue_story_with_text(story_id, custom_text)`: same transition as
`continue_story` but with the synthesized custom-text prompt and no
validation. -/
def continue_story_with_text (apiKey : Option Str) (env : Nat → ApiOutcome)
    (s : Session) (custom_text : Str) : Session × Except Str StoryResponse × Nat :=
  let story_context_text := joinSep ("\n".data) s.paragraphs
  let custom_prompt := customContinuationPrompt story_context_text custom_text
    s.current_paragraph s.max_paragraphs
  let s1 := { s with messages := s.messages ++ [⟨.user, custom_prompt⟩] }
  let g := generate_response apiKey env s1.messages 3 (3 / 2)
  match g.result with
  | .error e => (s1, .error e, g.requests)
  | .ok response_text =>
    let c := advanceCommit s1 response_text
    (c.1, .ok c.2, g.requests)

/-- `get_complete_story(story_id)`: join the stored paragraphs with blank
lines and prefix the speech-friendly title announcement when a title is
stored (and truthy). -/
def get_complete_story (s : Session) : Str :=
  let story_text := joinSep ("\n\n".data) s.paragraphs
  if pyTruthy s.title then
    "قصة بعنوان ".data ++ s.title.getD [] ++ ".\n\n".data ++ story_text
  else story_text

/-- `generate_title_if_missing(story_id)`: return the stored title when it
is truthy, otherwise issue a title-only model call, clean the reply, store
and return it. -/
def generate_title_if_missing (apiKey : Option Str) (env : Nat → ApiOutcome)
    (s : Session) : Session × Except Str Str × Nat :=
  if pyTruthy s.title then (s, .ok (s.title.getD []), 0)
  else
    let complete_story := get_complete_story s
    let messages : List Message :=
      [⟨.system, get_system_prompt⟩, ⟨.user, create_title_prompt complete_story⟩]
    let g := generate_response apiKey env messages 3 (3 / 2)
    match g.result with
    | .error e => (s, .error e, g.requests)
    | .ok t0 =>
      let title := strip (removeAllSub titleMarker (strip t0))
      ({ s with title := some title }, .ok title, g.requests)

/-! ## Story editing (`edit_story`) -/

/-- The marker of the optional new-title line. -/
def newTitleMarker : Str := "العنوان الجديد:".data

/-- The system prompt of `edit_story`. -/
def editSystemPrompt : Str :=
  ("أنت مساعد ذكي متخصص في تحرير وتعديل القصص العربية. مهمتك هي تعديل القصة بناءً على تعليمات المستخدم مع الحفاظ على الأسلوب والنبرة الأصلية. 
قم بإرجاع القصة المعدلة بالكامل وليس فقط الأجزاء المعدلة. تأكد من تقسيم القصة إلى فقرات واضحة كما في النص الأصلي.
إذا تطلبت التعليمات تغيير العنوان، قم بإضافة سطر \"العنوان الجديد: <العنوان المعدل>\" في بداية استجابتك.").data

/-- The user prompt of `edit_story`. -/
def editUserPrompt (complete_story edit_instructions : Str) : Str :=
  ("فيما يلي قصة كاملة:
    
").data ++ complete_story ++ ("

تعليمات التعديل:
").data ++ edit_instructions ++ ("

قم بتعديل القصة وفقًا للتعليمات المذكورة أعلاه وأرجع القصة المعدلة بالكامل مقسمة إلى فقرات.
").data

/-- Group of `re.search(r"العنوان الجديد:\s*(.*?)(?:\n|$)", ...)`: after
the leftmost marker, greedy whitespace, then the lazy group up to the first
newline or the end (the group cannot contain a newline). -/
def findNewTitleGroup (t : Str) : Option Str :=
  (findSub newTitleMarker t).map (fun i =>
    ((t.drop (i + newTitleMarker.length)).dropWhile pyWS).takeWhile (· ≠ '\n'))

/-- `re.sub(r"العنوان الجديد:\s*.*?(?:\n|$)", "", ...)`: remove every
new-title line, each match consuming its terminating newline (fuelled). -/
def removeNewTitleAll : Nat → Str → Str
  | 0, t => t
  | fuel + 1, t =>
    match findSub newTitleMarker t with
    | none => t
    | some i =>
      let before := t.take i
      let rest := (t.drop (i + newTitleMarker.length)).dropWhile pyWS
      let after := rest.dropWhile (· ≠ '\n')
      let after2 := match after with
        | '\n' :: tl => tl
        | other => other
      before ++ removeNewTitleAll fuel after2

/-- The post-model part of `edit_story`: extract and strip the optional
new-title line, remove it from the body, split the body on blank lines
into the new paragraph list, replace the stored paragraphs wholesale and
update the title only when the new title is truthy. -/
def edit_apply (s : Session) (response_text : Str) : Session × EditResult :=
  let tm := findNewTitleGroup response_text
  let new_title : Option Str := tm.map strip
  let cleaned :=
    match tm with
    | none => response_text
    | some _ => removeNewTitleAll (response_text.length + 1) response_text
  let edited_paragraphs :=
    ((splitSub ("\n\n".data) (cleaned.length + 1) cleaned).map strip).filter
      (fun p => !p.isEmpty)
  let result_title := if pyTruthy new_title then new_title else s.title
  ({ s with paragraphs := edited_paragraphs, title := result_title },
   ⟨edited_paragraphs, result_title⟩)

/-- `edit_story(story_id, edit_instructions)`: build a fresh two-message
conversation over the full story text, call the model and commit the edit.
The stored conversation history and paragraph index are never touched. -/
def edit_story (apiKey : Option Str) (env : Nat → ApiOutcome)
    (s : Session) (edit_instructions : Str) :
    Session × Except Str EditResult × Nat :=
  let complete_story := joinSep ("\n".data) s.paragraphs
  let messages : List Message :=
    [⟨.system, editSystemPrompt⟩, ⟨.user, editUserPrompt complete_story edit_instructions⟩]
  let g := generate_response apiKey env messages 3 (3 / 2)
  match g.result with
  | .error e => (s, .error e, g.requests)
  | .ok response_text =>
    let c := edit_apply s response_text
    (c.1, .ok c.2, g.requests)

/-! ## Reachable session states -/

/-- Session states reachable through the public operations other than
`edit_story`, starting from `initialize_story` (which stores no session on
failure), including the states left behind by failed operations. -/
inductive ReachNoEdit : Option Session → Prop
  | init (key : Option Str) (env : Nat → ApiOutcome) (config : StoryConfig)
      (story_id : Str) : ReachNoEdit (initialize_story key env config story_id).1
  | advance (key : Option Str) (env : Nat → ApiOutcome) (choice_id : Int)
      (s : Session) : ReachNoEdit (some s) →
      ReachNoEdit (some (continue_story key env s choice_id).1)
  | advanceText (key : Option Str) (env : Nat → ApiOutcome) (custom_text : Str)
      (s : Session) : ReachNoEdit (some s) →
      ReachNoEdit (some (continue_story_with_text key env s custom_text).1)
  | finalizeTitle (key : Option Str) (env : Nat → ApiOutcome) (s : Session) :
      ReachNoEdit (some s) →
      ReachNoEdit (some (generate_title_if_missing key env s).1)

/-- Session states reachable through all five public operations. -/
inductive Reachable : Option Session → Prop
  | init (key : Option Str) (env : Nat → ApiOutcome) (config : StoryConfig)
      (story_id : Str) : Reachable (initialize_story key env config story_id).1
  | advance (key : Option Str) (env : Nat → ApiOutcome) (choice_id : Int)
      (s : Session) : Reachable (some s) →
      Reachable (some (continue_story key env s choice_id).1)
  | advanceText (key : Option Str) (env : Nat → ApiOutcome) (custom_text : Str)
      (s : Session) : Reachable (some s) →
      Reachable (some (continue_story_with_text key env s custom_text).1)
  | finalizeTitle (key : Option Str) (env : Nat → ApiOutcome) (s : Session) :
      Reachable (some s) →
      Reachable (some (generate_title_if_missing key env s).1)
  | edit (key : Option Str) (env : Nat → ApiOutcome) (edit_instructions : Str)
      (s : Session) : Reachable (some s) →
      Reachable (some (edit_story key env s edit_instructions).1)

/-- The paragraph-index/paragraph-count equality, on an optional stored
session. -/
def indexCountInv : Option Session → Prop
  | none => True
  | some s => s.current_paragraph = s.paragraphs.length

/-! ## Helper lemmas -/

/-- An `Except` whose `toOption` is defined is `ok` of that value. -/
theorem except_eq_ok_of_isSome {ε α : Type _} (e : Except ε α)
    (h : e.toOption.isSome) : e = .ok (e.toOption.get h) := by
  cases e with
  | error x => simp [Except.toOption] at h
  | ok a => simp [Except.toOption]

/-- The state committed by `advanceCommit`: one appended paragraph, the
index incremented, two appended messages, the target untouched. -/
theorem advanceCommit_fst (s1 : Session) (response_text : Str) :
    (advanceCommit s1 response_text).1.current_paragraph = s1.current_paragraph + 1 ∧
    (advanceCommit s1 response_text).1.paragraphs.length = s1.paragraphs.length + 1 ∧
    (advanceCommit s1 response_text).1.max_paragraphs = s1.max_paragraphs := by
  unfold advanceCommit
  dsimp only
  split <;> simp

/-- The state left by `continue_from`: either the model call failed and
only the user prompt was appended, or the advance committed. -/
theorem continue_from_fst (key : Option Str) (env : Nat → ApiOutcome)
    (s : Session) (choice_id : Int) (choice_text : Str) :
    ((continue_from key env s choice_id choice_text).1.current_paragraph = s.current_paragraph ∧
     (continue_from key env s choice_id choice_text).1.paragraphs = s.paragraphs) ∨
    ((continue_from key env s choice_id choice_text).1.current_paragraph = s.current_paragraph + 1 ∧
     (continue_from key env s choice_id choice_text).1.paragraphs.length = s.paragraphs.length + 1) := by
  unfold continue_from
  dsimp only
  split
  · exact Or.inl ⟨rfl, rfl⟩
  · rename_i response_text heq
    refine Or.inr ?_
    have h := advanceCommit_fst
      { s with messages := s.messages ++ [⟨.user, create_continuation_prompt
          (joinSep ("\n".data) s.paragraphs) choice_id choice_text
          s.current_paragraph s.max_paragraphs⟩] } response_text
    exact ⟨h.1, by simpa using h.2.1⟩

/-- The state left by `continue_story`: unchanged on a validation error,
otherwise as `continue_from`. -/
theorem continue_story_fst (key : Option Str) (env : Nat → ApiOutcome)
    (s : Session) (choice_id : Int) :
    ((continue_story key env s choice_id).1.current_paragraph = s.current_paragraph ∧
     (continue_story key env s choice_id).1.paragraphs = s.paragraphs) ∨
    ((continue_story key env s choice_id).1.current_paragraph = s.current_paragraph + 1 ∧
     (continue_story key env s choice_id).1.paragraphs.length = s.paragraphs.length + 1) := by
  unfold continue_story
  dsimp only
  split
  · exact Or.inl ⟨rfl, rfl⟩
  · split
    · exact Or.inl ⟨rfl, rfl⟩
    · exact continue_from_fst _ _ _ _ _

/-- The state left by `continue_story_with_text`: either only the user
prompt was appended, or the advance committed. -/
theorem continue_story_with_text_fst (key : Option Str) (env : Nat → ApiOutcome)
    (s : Session) (custom_text : Str) :
    ((continue_story_with_text key env s custom_text).1.current_paragraph = s.current_paragraph ∧
     (continue_story_with_text key env s custom_text).1.paragraphs = s.paragraphs) ∨
    ((continue_story_with_text key env s custom_text).1.current_paragraph = s.current_paragraph + 1 ∧
     (continue_story_with_text key env s custom_text).1.paragraphs.length = s.paragraphs.length + 1) := by
  unfold continue_story_with_text
  dsimp only
  split
  · exact Or.inl ⟨rfl, rfl⟩
  · rename_i response_text heq
    refine Or.inr ?_
    have h := advanceCommit_fst
      { s with messages := s.messages ++ [⟨.user, customContinuationPrompt
          (joinSep ("\n".data) s.paragraphs) custom_text
          s.current_paragraph s.max_paragraphs⟩] } response_text
    exact ⟨h.1, by simpa using h.2.1⟩

/-- `generate_title_if_missing` never touches the paragraph list or the
index. -/
theorem generate_title_fst (key : Option Str) (env : Nat → ApiOutcome)
    (s : Session) :
    (generate_title_if_missing key env s).1.current_paragraph = s.current_paragraph ∧
    (generate_title_if_missing key env s).1.paragraphs = s.paragraphs := by
  unfold generate_title_if_missing
  dsimp only
  split
  · exact ⟨rfl, rfl⟩
  · split
    · exact ⟨rfl, rfl⟩
    · simp

/-- `edit_story` touches only the stored paragraphs and the title: the
index, the target, the conversation history, the configuration and the
identifier are returned unchanged on every path. -/
theorem edit_story_frame_lemma (key : Option Str) (env : Nat → ApiOutcome)
    (s : Session) (edit_instructions : Str) :
    (edit_story key env s edit_instructions).1.current_paragraph = s.current_paragraph ∧
    (edit_story key env s edit_instructions).1.max_paragraphs = s.max_paragraphs ∧
    (edit_story key env s edit_instructions).1.messages = s.messages ∧
    (edit_story key env s edit_instructions).1.config = s.config ∧
    (edit_story key env s edit_instructions).1.story_id = s.story_id := by
  unfold edit_story edit_apply
  dsimp only
  split
  · exact ⟨rfl, rfl, rfl, rfl, rfl⟩
  · simp

/-- `initialize_story` stores no session on failure, and on success stores
a session whose index `1` equals its single stored paragraph. -/
theorem initialize_story_inv (key : Option Str) (env : Nat → ApiOutcome)
    (config : StoryConfig) (story_id : Str) :
    indexCountInv (initialize_story key env config story_id).1 := by
  unfold initialize_story
  dsimp only
  split
  · simp [indexCountInv]
  · simp [indexCountInv]

/-! ## Claim C3 -/

/-- C3 (amended): across `initialize`, both advance operations and
`finalizeTitle`, every reachable stored session satisfies
`current_paragraph = paragraphs.length`, and every public operation
(including `edit_story`) leaves the stored paragraph index monotonically
non-decreasing; `edit_story`, however, replaces the paragraph list without
recomputing the index, so the equality can fail after an edit. -/
theorem c3_index_invariant :
    (∀ o, ReachNoEdit o → indexCountInv o) ∧
    (∀ (key : Option Str) (env : Nat → ApiOutcome) (s : Session) (choice_id : Int),
      s.current_paragraph ≤ (continue_story key env s choice_id).1.current_paragraph) ∧
    (∀ (key : Option Str) (env : Nat → ApiOutcome) (s : Session) (custom_text : Str),
      s.current_paragraph ≤ (continue_story_with_text key env s custom_text).1.current_paragraph) ∧
    (∀ (key : Option Str) (env : Nat → ApiOutcome) (s : Session),
      s.current_paragraph ≤ (generate_title_if_missing key env s).1.current_paragraph) ∧
    (∀ (key : Option Str) (env : Nat → ApiOutcome) (s : Session) (edit_instructions : Str),
      s.current_paragraph ≤ (edit_story key env s edit_instructions).1.current_paragraph) := by
  refine ⟨?_, ?_, ?_, ?_, ?_⟩
  · intro o h
    induction h with
    | init key env config story_id => exact initialize_story_inv key env config story_id
    | advance key env choice_id s hs ih =>
      rcases continue_story_fst key env s choice_id with ⟨h1, h2⟩ | ⟨h1, h2⟩ <;>
        simp only [indexCountInv] at ih ⊢ <;> rw [h1, h2] <;> omega
    | advanceText key env custom_text s hs ih =>
      rcases continue_story_with_text_fst key env s custom_text with ⟨h1, h2⟩ | ⟨h1, h2⟩ <;>
        simp only [indexCountInv] at ih ⊢ <;> rw [h1, h2] <;> omega
    | finalizeTitle key env s hs ih =>
      obtain ⟨h1, h2⟩ := generate_title_fst key env s
      simp only [indexCountInv] at ih ⊢
      rw [h1, h2, ih]
  · intro key env s choice_id
    rcases continue_story_fst key env s choice_id with ⟨h1, _⟩ | ⟨h1, _⟩ <;> omega
  · intro key env s custom_text
    rcases continue_story_with_text_fst key env s custom_text with ⟨h1, _⟩ | ⟨h1, _⟩ <;> omega
  · intro key env s
    exact (generate_title_fst key env s).1.ge
  · intro key env s edit_instructions
    exact (edit_story_frame_lemma key env s edit_instructions).1.ge

/-- The successful initialization environment of the C3 counterexample. -/
def c3envInit : Nat → ApiOutcome :=
  fun _ => .success ("الفقرة: أ\nالخيارات:\n1. ب\n2. ج\n3. د".data)

/-- The configuration of the C3 counterexample. -/
def c3cfg : StoryConfig := ⟨.short, .adventure, .noneType, []⟩

/-- The session stored by a successful short initialization. -/
def c3s0 : Session :=
  ((initialize_story (some ("k".data)) c3envInit c3cfg ("id".data)).1).get (by rfl)

/-- The edit environment of the C3 counterexample: the model returns a
two-paragraph edited story. -/
def c3envEdit : Nat → ApiOutcome := fun _ => .success ("A\n\nB".data)

/-- The session after editing `c3s0` into two paragraphs. -/
def c3s1 : Session :=
  (edit_story (some ("k".data)) c3envEdit c3s0 ("تعليمات".data)).1

/-- C3 counterexample: the session reached by `initialize` (index 1, one
paragraph) followed by an `edit` whose reply splits into two paragraphs is
reachable through the public operations yet stores index 1 against two
paragraph texts, so the index/count equality of the claim fails. -/
theorem c3_counterexample :
    Reachable (some c3s1) ∧
    c3s1.current_paragraph = 1 ∧ c3s1.paragraphs.length = 2 := by
  refine ⟨?_, rfl, rfl⟩
  have h0 : Reachable ((initialize_story (some ("k".data)) c3envInit c3cfg ("id".data)).1) :=
    Reachable.init _ _ _ _
  have h1 : Reachable (some c3s0) := by
    unfold c3s0
    rw [Option.some_get]
    exact h0
  exact Reachable.edit _ _ _ _ h1

/-- Witness for C3: the invariant hypothesis is satisfiable — it holds of
the state stored by a concrete successful initialization. -/
theorem c3_index_invariant_witness :
    indexCountInv ((initialize_story (some ("k".data)) c3envInit c3cfg ("id".data)).1) :=
  c3_index_invariant.1 _ (ReachNoEdit.init _ _ _ _)

/-! ## Claim C6 -/

/-- C6: `parse_paragraph_and_choices` is total by construction, and on any
input containing none of the paragraph, choices or title markers it
returns the whole input trimmed of surrounding whitespace as the
paragraph, with choices and title both absent. -/
theorem c6_parser_fallback (s : Str)
    (h1 : findSub parMarker s = none)
    (h2 : findSub choicesMarker s = none)
    (h3 : findSub titleMarker s = none) :
    parse_paragraph_and_choices s = (strip s, none, none) := by
  simp [parse_paragraph_and_choices, choicesBlock, h1, h2, h3]

/-- Witness for C6 at the marker-free input `"  hello world \n"`. -/
theorem c6_parser_fallback_witness :
    findSub parMarker ("  hello world \n".data) = none ∧
    findSub choicesMarker ("  hello world \n".data) = none ∧
    findSub titleMarker ("  hello world \n".data) = none ∧
    parse_paragraph_and_choices ("  hello world \n".data) =
      (strip ("  hello world \n".data), none, none) :=
  ⟨by decide, by decide, by decide,
   c6_parser_fallback _ (by decide) (by decide) (by decide)⟩

/-! ## Claim C2 -/

/-- C2 (amended): a 2xx response whose JSON payload lacks a non-empty
`choices` field raises inside the attempt, but the exception is caught by
the retry loop's generic handler: the attempt is consumed, the back-off
sleep is performed, and — when attempts remain — a further request is
made; only after the final attempt is the recorded error raised. -/
theorem c2_malformed_consumes_retry :
    (∀ (key : Str) (env : Nat → ApiOutcome) (messages : List Message) (c : Str),
      key ≠ [] → env 0 = .malformedSuccess → env 1 = .success c →
      (generate_response (some key) env messages 3 (3 / 2)).result = .ok c ∧
      (generate_response (some key) env messages 3 (3 / 2)).requests = 2 ∧
      (generate_response (some key) env messages 3 (3 / 2)).sleeps.length = 1) ∧
    (∀ (key : Str) (env : Nat → ApiOutcome) (messages : List Message),
      key ≠ [] → (∀ n, env n = .malformedSuccess) →
      (generate_response (some key) env messages 3 (3 / 2)).result =
        .error malformedResponseMsg ∧
      (generate_response (some key) env messages 3 (3 / 2)).requests = 3 ∧
      (generate_response (some key) env messages 3 (3 / 2)).sleeps.length = 3) := by
  constructor
  · intro key env messages c hk h0 h1
    have hkey : pyTruthy (some key) = true := by
      simp [pyTruthy, List.isEmpty_iff, hk]
    simp [generate_response, hkey, genLoop, h0, h1]
  · intro key env messages hk hall
    have hkey : pyTruthy (some key) = true := by
      simp [pyTruthy, List.isEmpty_iff, hk]
    simp [generate_response, hkey, genLoop, hall 0, hall 1, hall 2]

/-- The environment of the C2 counterexample: the first request yields a
2xx payload without `choices`, the second succeeds. -/
def c2env : Nat → ApiOutcome :=
  fun n => if n = 0 then .malformedSuccess else .success ("ok".data)

/-- C2 counterexample: after a 2xx response with a missing `choices`
field, `generate_response` does not raise immediately — it sleeps once,
consumes the attempt, issues a second request and returns that request's
content. -/
theorem c2_counterexample :
    (generate_response (some ("k".data)) c2env [] 3 (3 / 2)).requests = 2 ∧
    (generate_response (some ("k".data)) c2env [] 3 (3 / 2)).sleeps.length = 1 ∧
    (generate_response (some ("k".data)) c2env [] 3 (3 / 2)).result = .ok ("ok".data) :=
  ⟨rfl, rfl, rfl⟩

/-- Witness for C2 at the concrete environment of the counterexample and
at an environment whose every request yields a malformed 2xx payload. -/
theorem c2_malformed_consumes_retry_witness :
    ((generate_response (some ("w".data)) c2env [] 3 (3 / 2)).result = .ok ("ok".data) ∧
     (generate_response (some ("w".data)) c2env [] 3 (3 / 2)).requests = 2 ∧
     (generate_response (some ("w".data)) c2env [] 3 (3 / 2)).sleeps.length = 1) ∧
    ((generate_response (some ("w".data)) (fun _ => .malformedSuccess) [] 3 (3 / 2)).result =
       .error malformedResponseMsg ∧
     (generate_response (some ("w".data)) (fun _ => .malformedSuccess) [] 3 (3 / 2)).requests = 3 ∧
     (generate_response (some ("w".data)) (fun _ => .malformedSuccess) [] 3 (3 / 2)).sleeps.length = 3) :=
  ⟨c2_malformed_consumes_retry.1 _ c2env [] _ (by decide) rfl rfl,
   c2_malformed_consumes_retry.2 _ _ [] (by decide) (fun _ => rfl)⟩

/-! ## Claim C5 -/

/-- `not choices` in Python is exactly "zero parsed choices": falsy is
`None` or the empty list. -/
theorem pyFalsyChoices_eq_true_iff (o : Option (List StoryChoice)) :
    pyFalsyChoices o = true ↔ numChoices o = 0 := by
  cases o <;> simp [pyFalsyChoices, numChoices, List.isEmpty_iff, List.length_eq_zero]

/-- C5: whenever the requested choice id is below 1, above the number of
choices parsed from the last stored message, or no choices were parsed at
all, `continue_story` fails with the invalid-choice error, leaving the
session exactly unchanged and issuing no HTTP request. -/
theorem c5_invalid_choice_rejected (key : Option Str) (env : Nat → ApiOutcome)
    (s : Session) (choice_id : Int) (last : Message)
    (hlast : s.messages.getLast? = some last)
    (hinv : choice_id < 1 ∨
      choice_id > (numChoices ((parse_paragraph_and_choices last.content).2.1) : Int) ∨
      numChoices ((parse_paragraph_and_choices last.content).2.1) = 0) :
    continue_story key env s choice_id = (s, .error invalidChoiceMsg, 0) := by
  have hcond : pyFalsyChoices ((parse_paragraph_and_choices last.content).2.1) = true ∨
      choice_id < 1 ∨
      choice_id > (numChoices ((parse_paragraph_and_choices last.content).2.1) : Int) := by
    rcases hinv with h | h | h
    · exact Or.inr (Or.inl h)
    · exact Or.inr (Or.inr h)
    · exact Or.inl ((pyFalsyChoices_eq_true_iff _).mpr h)
  unfold continue_story
  rw [hlast]
  dsimp only
  rw [if_pos hcond]

/-- The session of the C5 witness: its last stored message parses to two
choices. -/
def c5session : Session :=
  ⟨"id".data, ["p".data], 1, ⟨.short, .drama, .noneType, []⟩, 3,
   [⟨.assistant, ("الخيارات:\n1. أ\n2. ب".data)⟩], none⟩

/-- Witness for C5: the out-of-range id 0 is rejected on a concrete
session without any state change or request. -/
theorem c5_invalid_choice_rejected_witness :
    continue_story none (fun _ => .rateLimited) c5session 0 =
      (c5session, .error invalidChoiceMsg, 0) :=
  c5_invalid_choice_rejected none (fun _ => .rateLimited) c5session 0
    ⟨.assistant, ("الخيارات:\n1. أ\n2. ب".data)⟩ rfl (Or.inl (by decide))

/-! ## Claim C10 -/

/-- C10: when the id validation passes (`1 ≤ choiceId ≤ len(choices)`) but
no parsed choice carries exactly that id — possible when the parsed ids
are non-contiguous — `continue_story` still proceeds: the chosen option's
text defaults to the empty string and the advance continues from it, with
no error raised. -/
theorem c10_missing_choice_empty_text (key : Option Str) (env : Nat → ApiOutcome)
    (s : Session) (choice_id : Int) (last : Message)
    (hlast : s.messages.getLast? = some last)
    (hfalsy : pyFalsyChoices ((parse_paragraph_and_choices last.content).2.1) = false)
    (hge : 1 ≤ choice_id)
    (hle : choice_id ≤ (numChoices ((parse_paragraph_and_choices last.content).2.1) : Int))
    (hnone : ∀ c ∈ ((parse_paragraph_and_choices last.content).2.1).getD [],
      c.id ≠ choice_id) :
    chosenText (((parse_paragraph_and_choices last.content).2.1).getD []) choice_id = [] ∧
    continue_story key env s choice_id = continue_from key env s choice_id [] := by
  have hct : chosenText (((parse_paragraph_and_choices last.content).2.1).getD [])
      choice_id = [] := by
    unfold chosenText
    rw [List.find?_eq_none.mpr]
    · rfl
    · intro c hc
      simpa using hnone c hc
  have hcond : ¬(pyFalsyChoices ((parse_paragraph_and_choices last.content).2.1) = true ∨
      choice_id < 1 ∨
      choice_id > (numChoices ((parse_paragraph_and_choices last.content).2.1) : Int)) := by
    push_neg
    exact ⟨by simp [hfalsy], by omega, by omega⟩
  refine ⟨hct, ?_⟩
  unfold continue_story
  rw [hlast]
  dsimp only
  rw [if_neg hcond, hct]

/-- The session of the C10 witness: its last stored message parses to the
single choice `(2, "A")` — one choice, but none with id 1. -/
def c10session : Session :=
  ⟨"id".data, ["p".data], 1, ⟨.short, .drama, .noneType, []⟩, 3,
   [⟨.assistant, ("الخيارات:1.\n2. A".data)⟩], none⟩

/-- Witness for C10: id 1 passes validation against the one-element parsed
choice list yet matches no parsed id, and the advance proceeds with the
empty chosen text. -/
theorem c10_missing_choice_empty_text_witness :
    chosenText (((parse_paragraph_and_choices ("الخيارات:1.\n2. A".data)).2.1).getD []) 1 = [] ∧
    continue_story none (fun _ => .rateLimited) c10session 1 =
      continue_from none (fun _ => .rateLimited) c10session 1 [] :=
  c10_missing_choice_empty_text none (fun _ => .rateLimited) c10session 1
    ⟨.assistant, ("الخيارات:1.\n2. A".data)⟩ rfl (by decide) (by decide) (by decide)
    (by decide)
/-! ## Claim C7 -/

/-- The fallback loop appends nothing once the counter has passed 3. -/
theorem buildFallbackAux_eq_nil (lines : List Str) :
    ∀ i : Int, 3 < i → buildFallbackAux i lines = [] := by
  induction lines with
  | nil => intro i _; rfl
  | cons l rest ih =>
    intro i h
    unfold buildFallbackAux
    rw [if_neg (by omega)]
    exact ih (i + 1) (by omega)

/-- In the fallback extraction the k-th kept choice has id `i + k`. -/
theorem buildFallbackAux_get (lines : List Str) :
    ∀ (i : Int) (k : Nat) (c : StoryChoice),
      (buildFallbackAux i lines).get? k = some c → c.id = i + k := by
  induction lines with
  | nil => intro i k c hc; simp [buildFallbackAux] at hc
  | cons l rest ih =>
    intro i k c hc
    by_cases hi : i ≤ 3
    · rw [buildFallbackAux, if_pos hi] at hc
      cases k with
      | zero =>
        simp only [List.get?_cons_zero, Option.some_inj] at hc
        simp [← hc]
      | succ k =>
        rw [List.get?_cons_succ] at hc
        have h := ih (i + 1) k c hc
        rw [h]
        push_cast
        ring
    · rw [buildFallbackAux_eq_nil _ i (by omega)] at hc
      simp at hc

/-- In the numbered extraction, when no item is skipped (every item's
stripped text is non-empty) the k-th choice has id `i + k`. -/
theorem buildNumberedAux_get (items : List Str) :
    ∀ i : Int, (∀ it ∈ items, (strip it).isEmpty = false) →
    ∀ (k : Nat) (c : StoryChoice),
      (buildNumberedAux i items).get? k = some c → c.id = i + k := by
  induction items with
  | nil => intro i _ k c hc; simp [buildNumberedAux] at hc
  | cons it rest ih =>
    intro i h k c hc
    have hit : (strip it).isEmpty = false := h it (by simp)
    rw [buildNumberedAux] at hc
    rw [if_neg (by simp [hit])] at hc
    cases k with
    | zero =>
      simp only [List.get?_cons_zero, Option.some_inj] at hc
      simp [← hc]
    | succ k =>
      rw [List.get?_cons_succ] at hc
      have hrec := ih (i + 1) (fun x hx => h x (by simp [hx])) k c hc
      rw [hrec]
      push_cast
      ring

/-- The choice component of the parser, as a function of the choices
block. -/
theorem parse_choices_eq (s : Str) :
    (parse_paragraph_and_choices s).2.1 =
      (choicesBlock s).map (fun choices_text =>
        if (buildNumbered (numberedItems choices_text)).isEmpty then
          buildFallback choices_text
        else buildNumbered (numberedItems choices_text)) := by
  unfold parse_paragraph_and_choices
  dsimp only
  cases choicesBlock s <;> rfl

/-- C7 (amended): the k-th choice returned by the parser (0-based `k`) has
id exactly `k + 1` under the line-based fallback extraction always —
with no hypothesis, also when the fallback engages because every numbered
match was empty — and under the numbered-list extraction whenever no
matched numbered item has empty stripped text; a numbered item whose text
is empty is skipped while the id counter still advances, which is the
only way contiguity fails. -/
theorem c7_choice_ids_contiguous (s : Str)
    (hfull : (buildNumbered (numberedItems ((choicesBlock s).getD []))).isEmpty = false →
      ∀ it ∈ numberedItems ((choicesBlock s).getD []),
        (strip it).isEmpty = false) :
    ∀ (k : Nat) (c : StoryChoice),
      (((parse_paragraph_and_choices s).2.1).getD []).get? k = some c →
      c.id = (k : Int) + 1 := by
  intro k c hc
  rw [parse_choices_eq] at hc
  rcases hcb : choicesBlock s with _ | ct
  · rw [hcb] at hc
    simp at hc
  · rw [hcb] at hc
    simp only [Option.map_some', Option.getD_some] at hc
    by_cases hne : (buildNumbered (numberedItems ct)).isEmpty
    · rw [if_pos hne] at hc
      rw [buildFallbackAux_get _ 1 k c (by simpa [buildFallback] using hc)]
      ring
    · rw [if_neg hne] at hc
      rw [buildNumberedAux_get (numberedItems ct) 1 ?_ k c (by simpa [buildNumbered] using hc)]
      · ring
      · intro it hit
        simp only [Bool.not_eq_true] at hne
        refine hfull ?_ it (by rw [hcb]; simpa using hit)
        rw [hcb]
        exact hne

/-- C7 counterexample: on the reply `"الخيارات:1.\n2. A"` the numbered
extraction matches the empty item of `1.` (skipped) and the item `A` of
`2.`, so the single returned choice carries id 2, not 1. -/
theorem c7_counterexample :
    (((parse_paragraph_and_choices ("الخيارات:1.\n2. A".data)).2.1).getD []).map
      (fun c => c.id) = [2] ∧
    ¬(∀ (k : Nat) (c : StoryChoice),
        (((parse_paragraph_and_choices ("الخيارات:1.\n2. A".data)).2.1).getD []).get? k =
          some c → c.id = (k : Int) + 1) := by
  refine ⟨by decide, fun h => ?_⟩
  have h0 := h 0 ⟨2, "A".data⟩ (by decide)
  revert h0
  decide

/-- The input of the C7 witness exercising the numbered extraction. -/
def c7wStr : Str := "الخيارات:\n1. X\n2. Y".data

/-- The input of the C7 witness exercising the fallback after an
all-empty numbered match list (`numberedItems` yields one empty item, the
numbered build is empty, and the fallback returns the single choice
`(1, "")`). -/
def c7wFallbackStr : Str := "الخيارات: 1.".data

/-- Witness for C7: on a reply whose numbered items all have non-empty
text the hypothesis holds and the first returned choice has id 1, and on
a reply whose only numbered match is empty the fallback engages with the
hypothesis vacuous and its first (empty-text) choice also has id 1. -/
theorem c7_choice_ids_contiguous_witness :
    ((numberedItems ((choicesBlock c7wStr).getD [])).all
      (fun it => !(strip it).isEmpty) = true ∧
     (StoryChoice.mk 1 ("X".data)).id = (0 : Int) + 1) ∧
    ((buildNumbered (numberedItems ((choicesBlock c7wFallbackStr).getD []))).isEmpty = true ∧
     (((parse_paragraph_and_choices c7wFallbackStr).2.1).getD []).get? 0 =
       some (StoryChoice.mk 1 []) ∧
     (StoryChoice.mk 1 ([] : Str)).id = (0 : Int) + 1) :=
  ⟨⟨by decide,
    c7_choice_ids_contiguous c7wStr (by decide) 0 ⟨1, "X".data⟩ (by decide)⟩,
   ⟨by decide, by decide,
    c7_choice_ids_contiguous c7wFallbackStr (by decide) 0 ⟨1, []⟩ (by decide)⟩⟩

/-! ## Claim C9 -/

/-- C9: `edit_story` modifies only the stored paragraph list (replaced
wholesale by the blank-line split of the edited text) and, when a new-title
line is parsed, the title.  The paragraph index, the maximum paragraph
target, the conversation history, the configuration and the identifier are
unchanged on every path; the replacement paragraphs do not depend on the
prior session state at all, and without a new-title line the title is
unchanged. -/
theorem c9_edit_frame :
    (∀ (key : Option Str) (env : Nat → ApiOutcome) (s : Session) (edit_instructions : Str),
      (edit_story key env s edit_instructions).1.current_paragraph = s.current_paragraph ∧
      (edit_story key env s edit_instructions).1.max_paragraphs = s.max_paragraphs ∧
      (edit_story key env s edit_instructions).1.messages = s.messages ∧
      (edit_story key env s edit_instructions).1.config = s.config ∧
      (edit_story key env s edit_instructions).1.story_id = s.story_id) ∧
    (∀ (s t : Session) (response_text : Str),
      (edit_apply s response_text).1.paragraphs = (edit_apply t response_text).1.paragraphs) ∧
    (∀ (s : Session) (response_text : Str),
      findNewTitleGroup response_text = none →
      (edit_apply s response_text).1.title = s.title) := by
  refine ⟨edit_story_frame_lemma, ?_, ?_⟩
  · intro s t response_text
    rfl
  · intro s response_text h
    simp [edit_apply, h, pyTruthy]

/-- The session of the C9 witness. -/
def c9session : Session :=
  ⟨"id".data, ["p".data, "q".data, "r".data], 3,
   ⟨.short, .drama, .noneType, []⟩, 3,
   [⟨.system, "s".data⟩], some ("قديم".data)⟩

/-- Witness for C9 on a concrete session and a concrete edit reply with no
new-title line. -/
theorem c9_edit_frame_witness :
    (edit_story (some ("k".data)) (fun _ => .success ("A\n\nB".data)) c9session
      ("تعليمات".data)).1.current_paragraph = c9session.current_paragraph ∧
    (edit_apply c9session ("A\n\nB".data)).1.title = c9session.title :=
  ⟨(c9_edit_frame.1 (some ("k".data)) (fun _ => .success ("A\n\nB".data)) c9session
      ("تعليمات".data)).1,
   c9_edit_frame.2.2 c9session ("A\n\nB".data) (by decide)⟩

/-! ## Claim C8 -/

/-- C8 (amended): when the stored title is non-empty,
`generate_title_if_missing` returns it unchanged with no model request and
no session change; consequently, whenever a call returns a non-empty
title, a second call on the resulting session returns the identical value
without contacting the model or changing the session.  (A stored *empty*
title is falsy in Python and is regenerated, which is the only exception.) -/
theorem c8_title_idempotent :
    (∀ (key : Option Str) (env : Nat → ApiOutcome) (s : Session) (t : Str),
      s.title = some t → t ≠ [] →
      generate_title_if_missing key env s = (s, .ok t, 0)) ∧
    (∀ (key1 : Option Str) (env1 : Nat → ApiOutcome) (key2 : Option Str)
       (env2 : Nat → ApiOutcome) (s s1 : Session) (t : Str) (n : Nat),
      generate_title_if_missing key1 env1 s = (s1, .ok t, n) → t ≠ [] →
      generate_title_if_missing key2 env2 s1 = (s1, .ok t, 0)) := by
  have part1 : ∀ (key : Option Str) (env : Nat → ApiOutcome) (s : Session) (t : Str),
      s.title = some t → t ≠ [] →
      generate_title_if_missing key env s = (s, .ok t, 0) := by
    intro key env s t ht htne
    have hp : pyTruthy s.title = true := by
      rw [ht]; simp [pyTruthy, List.isEmpty_iff, htne]
    unfold generate_title_if_missing
    rw [if_pos hp, ht]
    rfl
  refine ⟨part1, ?_⟩
  intro key1 env1 key2 env2 s s1 t n h hne
  unfold generate_title_if_missing at h
  by_cases hp : pyTruthy s.title = true
  · rw [if_pos hp] at h
    injection h with h1 h2
    injection h2 with h21 h22
    injection h21 with h211
    subst h1
    have ht : s.title = some t := by
      rcases hst : s.title with _ | u
      · rw [hst] at hp; simp [pyTruthy] at hp
      · rw [hst] at h211
        simp only [Option.getD_some] at h211
        rw [h211]
    exact part1 key2 env2 s t ht hne
  · rw [if_neg hp] at h
    dsimp only at h
    split at h
    · exfalso
      injection h with h1 h2
      injection h2 with h21 h22
      exact Except.noConfusion h21
    · injection h with h1 h2
      injection h2 with h21 h22
      injection h21 with h211
      have hs1t : s1.title = some t := by
        rw [← h1, h211]
      exact part1 key2 env2 s1 t hs1t hne

/-- The session of the C8 counterexample: it already stores a title — the
empty string. -/
def c8session : Session :=
  ⟨"id".data, [], 1, ⟨.short, .drama, .noneType, []⟩, 3, [], some []⟩

/-- The environment of the C8 counterexample. -/
def c8env : Nat → ApiOutcome := fun _ => .success ("عنوان".data)

/-- C8 counterexample: on a session whose stored title is the empty string
— reachable, since `generate_title_if_missing` itself stores the stripped
model reply, which can be empty — the call does *not* return the stored
title unchanged: the empty title is falsy, so a model request is issued
(one HTTP request), a different value is returned and the session's title
changes. -/
theorem c8_counterexample :
    c8session.title = some [] ∧
    (generate_title_if_missing (some ("k".data)) c8env c8session).2.2 = 1 ∧
    (generate_title_if_missing (some ("k".data)) c8env c8session).2.1 =
      .ok ("عنوان".data) ∧
    (generate_title_if_missing (some ("k".data)) c8env c8session).1.title =
      some ("عنوان".data) ∧
    ("عنوان".data : Str) ≠ ([] : Str) :=
  ⟨rfl, rfl, rfl, rfl, by decide⟩

/-- The session of the first C8 witness call (a stored non-empty title). -/
def c8wsession : Session :=
  ⟨"id".data, ["ق".data], 1, ⟨.short, .drama, .noneType, []⟩, 3, [], some ("أ".data)⟩

/-- The session of the second C8 witness call (no stored title yet). -/
def c8w2session : Session :=
  ⟨"id".data, ["ق".data], 1, ⟨.short, .drama, .noneType, []⟩, 3, [], none⟩

/-- The environment of the second C8 witness call. -/
def c8wenv : Nat → ApiOutcome := fun _ => .success ("عنوان جيد".data)

/-- Witness for C8: a stored non-empty title is returned unchanged with no
request, and after a first call that generates a non-empty title the
second call returns the identical value with no request and no change. -/
theorem c8_title_idempotent_witness :
    (generate_title_if_missing none (fun _ => .rateLimited) c8wsession =
      (c8wsession, .ok ("أ".data), 0)) ∧
    (generate_title_if_missing none (fun _ => .rateLimited)
        (⟨"id".data, ["ق".data], 1, ⟨.short, .drama, .noneType, []⟩, 3, [],
          some ("عنوان جيد".data)⟩ : Session) =
      (⟨"id".data, ["ق".data], 1, ⟨.short, .drama, .noneType, []⟩, 3, [],
        some ("عنوان جيد".data)⟩, .ok ("عنوان جيد".data), 0)) :=
  ⟨c8_title_idempotent.1 none (fun _ => .rateLimited) c8wsession ("أ".data) rfl (by decide),
   c8_title_idempotent.2 (some ("k".data)) c8wenv none (fun _ => .rateLimited)
     c8w2session _ ("عنوان جيد".data) 1 rfl (by decide)⟩

/-! ## Claim C1 -/

/-- C1 (amended): when an advance operation fails (the model call raises
after exhausting retries, or validation rejects the request), the stored
paragraph list, paragraph index, title and target are exactly what they
were before and the error propagates; the conversation history, however,
is *not* always restored: when the failure happens in the model call, the
user continuation prompt appended before the call remains stored (exactly
one extra user message). -/
theorem c1_failed_advance_frame :
    (∀ (key : Option Str) (env : Nat → ApiOutcome) (s : Session) (choice_id : Int) (e : Str),
      (continue_story key env s choice_id).2.1 = .error e →
      (continue_story key env s choice_id).1.paragraphs = s.paragraphs ∧
      (continue_story key env s choice_id).1.current_paragraph = s.current_paragraph ∧
      (continue_story key env s choice_id).1.title = s.title ∧
      (continue_story key env s choice_id).1.max_paragraphs = s.max_paragraphs ∧
      ((continue_story key env s choice_id).1.messages = s.messages ∨
        ∃ m : Message, m.role = .user ∧
          (continue_story key env s choice_id).1.messages = s.messages ++ [m])) ∧
    (∀ (key : Option Str) (env : Nat → ApiOutcome) (s : Session) (custom_text : Str) (e : Str),
      (continue_story_with_text key env s custom_text).2.1 = .error e →
      (continue_story_with_text key env s custom_text).1.paragraphs = s.paragraphs ∧
      (continue_story_with_text key env s custom_text).1.current_paragraph = s.current_paragraph ∧
      (continue_story_with_text key env s custom_text).1.title = s.title ∧
      (continue_story_with_text key env s custom_text).1.max_paragraphs = s.max_paragraphs ∧
      ((continue_story_with_text key env s custom_text).1.messages = s.messages ∨
        ∃ m : Message, m.role = .user ∧
          (continue_story_with_text key env s custom_text).1.messages = s.messages ++ [m])) := by
  constructor
  · intro key env s choice_id e
    unfold continue_story
    dsimp only
    split
    · intro _
      exact ⟨rfl, rfl, rfl, rfl, Or.inl rfl⟩
    · split
      · intro _
        exact ⟨rfl, rfl, rfl, rfl, Or.inl rfl⟩
      · unfold continue_from
        dsimp only
        split
        · intro _
          exact ⟨rfl, rfl, rfl, rfl, Or.inr ⟨⟨Role.user, _⟩, rfl, rfl⟩⟩
        · intro h
          simp at h
  · intro key env s custom_text e
    unfold continue_story_with_text
    dsimp only
    split
    · intro _
      exact ⟨rfl, rfl, rfl, rfl, Or.inr ⟨⟨Role.user, _⟩, rfl, rfl⟩⟩
    · intro h
      simp at h

/-- The session of the C1 counterexample: its last stored message parses
to three choices. -/
def c1session : Session :=
  ⟨"id".data, ["p".data], 1, ⟨.short, .drama, .noneType, []⟩, 3,
   [⟨.assistant, ("الخيارات:\n1. أ\n2. ب\n3. ج".data)⟩], none⟩

/-- The environment of the C1 counterexample: every request fails at the
transport level, so all retries are exhausted. -/
def c1env : Nat → ApiOutcome := fun _ => .transportError ("x".data)

/-- C1 counterexample: a valid advance whose model call fails propagates
the error, yet the stored conversation history is *not* what it was before
the operation: the appended user prompt remains (two messages instead of
one), so the session state is not exactly restored. -/
theorem c1_counterexample :
    (continue_story (some ("k".data)) c1env c1session 1).2.1 =
      .error (transportErrMsg ("x".data)) ∧
    (continue_story (some ("k".data)) c1env c1session 1).1.messages.length = 2 ∧
    c1session.messages.length = 1 :=
  ⟨rfl, rfl, rfl⟩

/-- Witness for C1 at the counterexample's failing advance: the frame
properties of the amended claim hold there. -/
theorem c1_failed_advance_frame_witness :
    (continue_story (some ("k".data)) c1env c1session 1).1.paragraphs =
      c1session.paragraphs ∧
    (continue_story (some ("k".data)) c1env c1session 1).1.current_paragraph =
      c1session.current_paragraph ∧
    (continue_story (some ("k".data)) c1env c1session 1).1.title = c1session.title ∧
    (continue_story (some ("k".data)) c1env c1session 1).1.max_paragraphs =
      c1session.max_paragraphs ∧
    ((continue_story (some ("k".data)) c1env c1session 1).1.messages =
        c1session.messages ∨
      ∃ m : Message, m.role = .user ∧
        (continue_story (some ("k".data)) c1env c1session 1).1.messages =
          c1session.messages ++ [m]) :=
  c1_failed_advance_frame.1 (some ("k".data)) c1env c1session 1
    (transportErrMsg ("x".data)) rfl

/-! ## Claim C4 -/

/-- The session stored by a successful `initialize_story`: index 1, one
paragraph, target from the configured length. -/
theorem initialize_story_shape (key : Option Str) (env : Nat → ApiOutcome)
    (config : StoryConfig) (story_id : Str) (s : Session) :
    (initialize_story key env config story_id).1 = some s →
    s.current_paragraph = 1 ∧ s.paragraphs.length = 1 ∧
    s.max_paragraphs = (get_story_length_instructions config.length).paragraphs := by
  unfold initialize_story
  dsimp only
  split
  · intro h
    simp at h
  · intro h
    rw [Option.some.injEq] at h
    subst h
    exact ⟨rfl, rfl, rfl⟩

/-- A successful `continue_story`: the returned completion flag is the
pre-increment test `current >= max - 1`, choices are suppressed when it is
set, and the committed state has the index incremented with the target
untouched. -/
theorem continue_story_ok_shape (key : Option Str) (env : Nat → ApiOutcome)
    (s : Session) (choice_id : Int) (r : StoryResponse) :
    (continue_story key env s choice_id).2.1 = .ok r →
    r.is_complete = decide (s.current_paragraph ≥ s.max_paragraphs - 1) ∧
    (r.is_complete = true → r.paragraph.choices = none) ∧
    (continue_story key env s choice_id).1.current_paragraph = s.current_paragraph + 1 ∧
    (continue_story key env s choice_id).1.max_paragraphs = s.max_paragraphs := by
  unfold continue_story
  dsimp only
  split
  · intro h
    simp at h
  · split
    · intro h
      simp at h
    · unfold continue_from advanceCommit
      dsimp only
      split
      · intro h
        simp at h
      · intro h
        rw [Except.ok.injEq] at h
        subst h
        refine ⟨rfl, ?_, ?_, ?_⟩
        · intro hc
          dsimp only at hc
          simp only [hc]
          simp [hc]
        · split <;> rfl
        · split <;> rfl

/-- C4: for a short-length session (target 3), assuming every model call
succeeds: initialization stores index 1; a successful advance from index 1
returns `is_complete = false` and leaves index 2; a successful advance
from index 2 returns `is_complete = true` (pre-increment test `2 >= 3-1`)
with the returned paragraph's choices suppressed, leaving index 3. -/
theorem c4_short_scenario :
    (∀ (key : Option Str) (env : Nat → ApiOutcome) (config : StoryConfig)
       (story_id : Str) (s : Session),
      config.length = .short →
      (initialize_story key env config story_id).1 = some s →
      s.current_paragraph = 1 ∧ s.max_paragraphs = 3 ∧ s.paragraphs.length = 1) ∧
    (∀ (key : Option Str) (env : Nat → ApiOutcome) (s : Session) (choice_id : Int)
       (r : StoryResponse),
      s.current_paragraph = 1 → s.max_paragraphs = 3 →
      (continue_story key env s choice_id).2.1 = .ok r →
      r.is_complete = false ∧
      (continue_story key env s choice_id).1.current_paragraph = 2 ∧
      (continue_story key env s choice_id).1.max_paragraphs = 3) ∧
    (∀ (key : Option Str) (env : Nat → ApiOutcome) (s : Session) (choice_id : Int)
       (r : StoryResponse),
      s.current_paragraph = 2 → s.max_paragraphs = 3 →
      (continue_story key env s choice_id).2.1 = .ok r →
      r.is_complete = true ∧ r.paragraph.choices = none ∧
      (continue_story key env s choice_id).1.current_paragraph = 3) := by
  refine ⟨?_, ?_, ?_⟩
  · intro key env config story_id s hlen h
    obtain ⟨h1, h2, h3⟩ := initialize_story_shape key env config story_id s h
    refine ⟨h1, ?_, h2⟩
    rw [h3, hlen]
    rfl
  · intro key env s choice_id r h1 h2 hok
    obtain ⟨hc1, _, hc3, hc4⟩ := continue_story_ok_shape key env s choice_id r hok
    refine ⟨?_, by rw [hc3, h1], by rw [hc4, h2]⟩
    rw [hc1, h1, h2]
    rfl
  · intro key env s choice_id r h1 h2 hok
    obtain ⟨hc1, hc2, hc3, _⟩ := continue_story_ok_shape key env s choice_id r hok
    have hic : r.is_complete = true := by rw [hc1, h1, h2]; rfl
    exact ⟨hic, hc2 hic, by rw [hc3, h1]⟩

/-- The C4 witness configuration (short length). -/
def c4cfg : StoryConfig := ⟨.short, .adventure, .noneType, []⟩

/-- The environment of the C4 initialization. -/
def c4env0 : Nat → ApiOutcome :=
  fun _ => .success ("الفقرة: أ\nالخيارات:\n1. ب\n2. ج\n3. د".data)

/-- The session stored by the C4 initialization. -/
def c4s0 : Session :=
  ((initialize_story (some ("k".data)) c4env0 c4cfg ("id".data)).1).get (by rfl)

/-- The environment of the first C4 advance. -/
def c4env1 : Nat → ApiOutcome :=
  fun _ => .success ("الفقرة: هـ\nالخيارات:\n1. و\n2. ز\n3. ح".data)

/-- The session after the first C4 advance (choice 1). -/
def c4s1 : Session := (continue_story (some ("k".data)) c4env1 c4s0 1).1

/-- The view returned by the first C4 advance. -/
def c4r1 : StoryResponse :=
  (((continue_story (some ("k".data)) c4env1 c4s0 1).2.1).toOption).get (by rfl)

/-- The environment of the second C4 advance (final paragraph and title). -/
def c4env2 : Nat → ApiOutcome :=
  fun _ => .success ("الفقرة: ط\nالعنوان: قصة".data)

/-- The session after the second C4 advance (choice 2). -/
def c4s2 : Session := (continue_story (some ("k".data)) c4env2 c4s1 2).1

/-- The view returned by the second C4 advance. -/
def c4r2 : StoryResponse :=
  (((continue_story (some ("k".data)) c4env2 c4s1 2).2.1).toOption).get (by rfl)

/-- Witness for C4: the concrete short scenario — initialize, then two
successful advances — satisfies every hypothesis, and the theorem gives
index 1, then (incomplete, index 2), then (complete, suppressed choices,
index 3). -/
theorem c4_short_scenario_witness :
    (c4s0.current_paragraph = 1 ∧ c4s0.max_paragraphs = 3 ∧ c4s0.paragraphs.length = 1) ∧
    (c4r1.is_complete = false ∧ c4s1.current_paragraph = 2 ∧ c4s1.max_paragraphs = 3) ∧
    (c4r2.is_complete = true ∧ c4r2.paragraph.choices = none ∧
      c4s2.current_paragraph = 3) :=
  ⟨c4_short_scenario.1 (some ("k".data)) c4env0 c4cfg ("id".data) c4s0 rfl
     (Option.some_get _).symm,
   c4_short_scenario.2.1 (some ("k".data)) c4env1 c4s0 1 c4r1 rfl rfl
     (except_eq_ok_of_isSome ((continue_story (some ("k".data)) c4env1 c4s0 1).2.1)
       (by rfl)),
   c4_short_scenario.2.2 (some ("k".data)) c4env2 c4s1 2 c4r2 rfl rfl
     (except_eq_ok_of_isSome ((continue_story (some ("k".data)) c4env2 c4s1 2).2.1)
       (by rfl))⟩
